import Mathlib

/-!
# Real-time fan-out registry of the status-page backend

A shallow embedding of `backend/services/websocket.go`:

* the registry `WebSocketService.clients : map[string][]*websocket.Conn`,
* the mutators `RegisterClient` and `UnregisterClient`,
* the dispatcher `BroadcastToOrganization`, together with the part of
  `encoding/json` and of `(*websocket.Conn).WriteMessage` that it calls.

A `*websocket.Conn` is compared by pointer identity in the source (`c == conn`),
so a connection is modelled by a natural number naming the pointer. A Go map is
a finite partial function; `clients orgID = none` is the absent key (`ok == false`).
The `sync.RWMutex` makes every method body atomic with respect to the other
methods, so a sequential run is a composition of the functions below; the lock
operations of the dispatcher are kept as actions of its trace. The `log.Printf`
lines of the two mutators do not touch the registry and are left out; those of
the dispatcher are actions of its trace.
-/

namespace services

deriving instance DecidableEq for Except

/-! ## encoding/json -/

/-- Go values that can be handed to `json.Marshal` as `interface{}`. A struct is
given by its exported fields in declaration order under their JSON names; a map
has string keys; `unsupported` stands for a value of a type that `json.Marshal`
rejects (channel, function, complex number). -/
inductive GoValue where
  | null
  | bool (b : Bool)
  | int (n : Int)
  | str (s : String)
  | slice (xs : List GoValue)
  | struct (fs : List (String × GoValue))
  | map (fs : List (String × GoValue))
  | unsupported (kind : String)

/-- Hexadecimal digit, lower case, as `encoding/json` writes it. -/
def hexDigit (n : Nat) : Char :=
  if n < 10 then Char.ofNat (48 + n) else Char.ofNat (87 + n)

/-- The four hexadecimal digits of a `\uXXXX` escape. -/
def hex4 (n : Nat) : List Char :=
  [hexDigit (n / 4096 % 16), hexDigit (n / 256 % 16), hexDigit (n / 16 % 16), hexDigit (n % 16)]

/-- Escaping of one character inside a JSON string, as `json.Marshal` does it
(HTML escaping on, Go 1.22 or later): quote and backslash are backslash-escaped,
the control characters have their short or `\u00XX` form, `<`, `>`, `&`,
U+2028 and U+2029 are written as `\uXXXX`, everything else is copied. -/
def escapeChar (c : Char) : List Char :=
  let n := c.toNat
  if n = 34 then ['\\', '"']
  else if n = 92 then ['\\', '\\']
  else if n = 8 then ['\\', 'b']
  else if n = 12 then ['\\', 'f']
  else if n = 10 then ['\\', 'n']
  else if n = 13 then ['\\', 'r']
  else if n = 9 then ['\\', 't']
  else if n < 32 ∨ n = 60 ∨ n = 62 ∨ n = 38 ∨ n = 8232 ∨ n = 8233 then
    ['\\', 'u'] ++ hex4 n
  else [c]

/-- Escaping of the characters of a string, left to right. -/
def escapeChars : List Char → List Char
  | [] => []
  | c :: cs => escapeChar c ++ escapeChars cs

/-- A Go string as a JSON string literal. -/
def encodeString (s : String) : String :=
  String.mk (['"'] ++ escapeChars s.data ++ ['"'])

/-- Lexicographic order on code-point lists; on valid UTF-8 it is the byte
order in which `json.Marshal` sorts the keys of a map. -/
def lessCodes : List Nat → List Nat → Bool
  | _, [] => false
  | [], _ :: _ => true
  | x :: xs, y :: ys => x < y || (x == y && lessCodes xs ys)

/-- Key order of `json.Marshal` on a map with string keys. -/
def keyLess (a b : String) : Bool :=
  lessCodes (a.data.map Char.toNat) (b.data.map Char.toNat)

/-- Insertion of a map entry into a key-sorted entry list. -/
def insertField {α : Type} (f : String × α) : List (String × α) → List (String × α)
  | [] => [f]
  | g :: gs => if keyLess f.1 g.1 then f :: g :: gs else g :: insertField f gs

/-- Map entries sorted by key. -/
def sortFields {α : Type} : List (String × α) → List (String × α)
  | [] => []
  | f :: fs => insertField f (sortFields fs)

/-- The entries of a map are encoded one after the other in the order given,
here the sorted one: the encoded entries, or the error of the first value that
does not marshal. -/
def collectFields : List (String × Except String String) →
    Except String (List (String × String))
  | [] => .ok []
  | (k, .ok j) :: rest =>
    match collectFields rest with
    | .ok js => .ok ((k, j) :: js)
    | .error e => .error e
  | (_, .error e) :: _ => .error e

/-- Elements separated by commas. -/
def commaJoin : List String → String
  | [] => ""
  | [x] => x
  | x :: y :: rest => x ++ "," ++ commaJoin (y :: rest)

/-- One `"key":value` member of a JSON object. -/
def encodeField (f : String × String) : String :=
  encodeString f.1 ++ ":" ++ f.2

/-- A JSON object from encoded fields, in the order given. -/
def encodeObject (fs : List (String × String)) : String :=
  "\x7b" ++ commaJoin (fs.map encodeField) ++ "\x7d"

mutual
/-- The function `json.Marshal`: the compact JSON text of a value, or the error. A
struct writes its fields in declaration order; a map sorts its keys first and
then writes its entries in that order, so the error of a map is the error of
its first failing value in key order. -/
def Marshal : GoValue → Except String String
  | .null => .ok "null"
  | .bool b => .ok (if b then "true" else "false")
  | .int n => .ok (toString n)
  | .str s => .ok (encodeString s)
  | .slice xs =>
    match marshalList xs with
    | .ok js => .ok ("[" ++ commaJoin js ++ "]")
    | .error e => .error e
  | .struct fs =>
    match marshalFields fs with
    | .ok gs => .ok (encodeObject gs)
    | .error e => .error e
  | .map fs =>
    match collectFields (sortFields (marshalEntries fs)) with
    | .ok gs => .ok (encodeObject gs)
    | .error e => .error e
  | .unsupported kind => .error ("json: unsupported type: " ++ kind)
/-- Elements of a slice, marshalled left to right. -/
def marshalList : List GoValue → Except String (List String)
  | [] => .ok []
  | v :: vs =>
    match Marshal v with
    | .ok j =>
      match marshalList vs with
      | .ok js => .ok (j :: js)
      | .error e => .error e
    | .error e => .error e
/-- Fields of a struct, marshalled in declaration order up to the first error. -/
def marshalFields : List (String × GoValue) → Except String (List (String × String))
  | [] => .ok []
  | (k, v) :: fs =>
    match Marshal v with
    | .ok j =>
      match marshalFields fs with
      | .ok js => .ok ((k, j) :: js)
      | .error e => .error e
    | .error e => .error e
/-- Entries of a map, each key with what marshalling its value gives. -/
def marshalEntries : List (String × GoValue) → List (String × Except String String)
  | [] => []
  | (k, v) :: fs => (k, Marshal v) :: marshalEntries fs
end

/-! ## The registry -/

/-- A `*websocket.Conn`, identified by its address. -/
abbrev Conn := Nat

/-- Go map update `m[k] = v`. -/
def mapSet (m : String → Option (List Conn)) (k : String) (v : List Conn) :
    String → Option (List Conn) :=
  fun k' => if k' = k then some v else m k'

/-- The struct `WebSocketService`: organization ID to its list of connections. -/
structure WebSocketService where
  clients : String → Option (List Conn)

/-- Constructor `NewWebSocketService`: the empty map. -/
def NewWebSocketService : WebSocketService :=
  { clients := fun _ => none }

/-- The Go expression `s.clients[orgID]` read as a value: the nil slice when the
key is absent. -/
def WebSocketService.conns (s : WebSocketService) (orgID : String) : List Conn :=
  (s.clients orgID).getD []

/-- Method `RegisterClient`: create the empty collection when the key is absent,
then append `conn`. -/
def RegisterClient (s : WebSocketService) (orgID : String) (conn : Conn) : WebSocketService :=
  let s1 : WebSocketService :=
    match s.clients orgID with
    | some _ => s
    | none => { clients := mapSet s.clients orgID [] }
  { clients := mapSet s1.clients orgID (s1.conns orgID ++ [conn]) }

/-- The loop `for i, c := range connections` of `UnregisterClient` up to its
`break`: the first index, counted from `i`, whose element is `conn`. -/
def rangeFind (conn : Conn) : List Conn → Nat → Option Nat
  | [], _ => none
  | c :: rest, i => if c = conn then some i else rangeFind conn rest (i + 1)

/-- Method `UnregisterClient`: when the key is present and the loop finds `conn` at
index `i`, store `append(connections[:i], connections[i+1:]...)`. -/
def UnregisterClient (s : WebSocketService) (orgID : String) (conn : Conn) : WebSocketService :=
  match s.clients orgID with
  | some connections =>
    match rangeFind conn connections 0 with
    | some i => { clients := mapSet s.clients orgID (connections.take i ++ connections.drop (i + 1)) }
    | none => s
  | none => s

/-! ## The dispatcher -/

/-- Observable actions of a broadcast. -/
inductive Action where
  | RLock
  | RUnlock
  | Printf (line : String)
  | WriteMessage (conn : Conn) (messageType : Nat) (data : String)
  deriving DecidableEq, Repr

/-- The constant `websocket.TextMessage`. -/
def TextMessage : Nat := 1

/-- The outcome of `conn.WriteMessage` is decided by the network: for the send at
loop position `i` to `conn` with the given bytes, `none` is success and `some e`
the error. -/
abbrev WriteOracle := Nat → Conn → String → Option String

/-- The loop `for _, conn := range connections` of `BroadcastToOrganization`,
from position `i`: each connection is written to, and a failing write is logged. -/
def writeLoop (w : WriteOracle) (messageBytes : String) : Nat → List Conn → List Action
  | _, [] => []
  | i, conn :: rest =>
    match w i conn messageBytes with
    | none =>
      Action.WriteMessage conn TextMessage messageBytes :: writeLoop w messageBytes (i + 1) rest
    | some err =>
      Action.WriteMessage conn TextMessage messageBytes ::
        Action.Printf ("Failed to send WebSocket message: " ++ err) ::
          writeLoop w messageBytes (i + 1) rest

/-- The envelope `map[string]interface{}{"event": event, "data": data}`. -/
def envelope (event : String) (data : GoValue) : GoValue :=
  GoValue.map [("event", GoValue.str event), ("data", data)]

/-- Method `BroadcastToOrganization`: the registry after the call and the trace of
the call. The read lock is taken first and released by the deferred `RUnlock`
when the body returns. -/
def BroadcastToOrganization (s : WebSocketService) (w : WriteOracle) (orgID event : String)
    (data : GoValue) : WebSocketService × List Action :=
  let body : List Action :=
    match s.clients orgID with
    | some connections =>
      match Marshal (envelope event data) with
      | .error err => [Action.Printf ("Failed to marshal WebSocket message: " ++ err)]
      | .ok messageBytes => writeLoop w messageBytes 0 connections
    | none => []
  (s, [Action.RLock] ++ body ++ [Action.RUnlock])

/-- The send attempts of a trace, in order: target connection and bytes. -/
def sends : List Action → List (Conn × String)
  | [] => []
  | Action.WriteMessage conn _ data :: rest => (conn, data) :: sends rest
  | _ :: rest => sends rest

/-- The wire text that the source produces for event kind `event` and a payload
whose JSON text is `json`: the envelope object with its keys in sorted order. -/
def wireMessage (event json : String) : String :=
  "\x7b\"data\":" ++ json ++ ",\"event\":" ++ encodeString event ++ "\x7d"

/-! ## Reachable registry states and the registry invariant -/

/-- Registry states that some sequence of `RegisterClient` and `UnregisterClient`
calls produces from `NewWebSocketService()`. -/
inductive Reachable : WebSocketService → Prop
  | init : Reachable NewWebSocketService
  | register (s : WebSocketService) (orgID : String) (conn : Conn) :
      Reachable s → Reachable (RegisterClient s orgID conn)
  | unregister (s : WebSocketService) (orgID : String) (conn : Conn) :
      Reachable s → Reachable (UnregisterClient s orgID conn)

/-- Registry states produced by call sequences in which every `RegisterClient`
is given a connection that is in no collection at the time of the call. -/
inductive ReachableFresh : WebSocketService → Prop
  | init : ReachableFresh NewWebSocketService
  | register (s : WebSocketService) (orgID : String) (conn : Conn) :
      ReachableFresh s → (∀ U, conn ∉ s.conns U) → ReachableFresh (RegisterClient s orgID conn)
  | unregister (s : WebSocketService) (orgID : String) (conn : Conn) :
      ReachableFresh s → ReachableFresh (UnregisterClient s orgID conn)

/-- The registry invariant of the data model: a connection is in at most one
tenant's collection, and at most once in it. -/
def RegistryInvariant (s : WebSocketService) : Prop :=
  (∀ A B c, c ∈ s.conns A → c ∈ s.conns B → A = B) ∧ ∀ A, (s.conns A).Nodup

/-! ## Scenarios -/

/-- Three connections registered under `"org-1"`. -/
def threeClients : WebSocketService :=
  RegisterClient (RegisterClient (RegisterClient NewWebSocketService "org-1" 1) "org-1" 2) "org-1" 3

/-- The payload `{"id":"svc-1","status":"Outage"}` as a Go struct value. -/
def outagePayload : GoValue :=
  GoValue.struct [("id", GoValue.str "svc-1"), ("status", GoValue.str "Outage")]

/-- Every write succeeds. -/
def allDelivered : WriteOracle := fun _ _ _ => none

/-- The first write of the loop fails, the later ones succeed. -/
def firstFails : WriteOracle := fun i _ _ => if i = 0 then some "write: broken pipe" else none

/-- One connection registered under two organizations. -/
def sharedConn : WebSocketService :=
  RegisterClient (RegisterClient NewWebSocketService "org-a" 7) "org-b" 7

/-- One connection registered twice under the same organization. -/
def twiceRegistered : WebSocketService :=
  RegisterClient (RegisterClient NewWebSocketService "org-1" 7) "org-1" 7

/-- A payload that `json.Marshal` rejects: a struct with a channel field. -/
def channelPayload : GoValue :=
  GoValue.struct [("id", GoValue.str "svc-1"), ("done", GoValue.unsupported "chan int")]

/-! ## Event kinds -/

/-- Constant `ServiceUpdated`. -/
def ServiceUpdated : String := "SERVICE_UPDATED"

/-- Constant `IncidentCreated`. -/
def IncidentCreated : String := "INCIDENT_CREATED"

/-- Constant `IncidentUpdated`. -/
def IncidentUpdated : String := "INCIDENT_UPDATED"

/-- Constant `UpdateAdded`. -/
def UpdateAdded : String := "UPDATE_ADDED"

/-- The constants of the `const ( ... )` block of event kinds, in source order. -/
def eventKinds : List String :=
  [ServiceUpdated, IncidentCreated, IncidentUpdated, UpdateAdded]

/-! ## Sequential callers and the read lock -/

/-- One call of a method of the service by a sequential caller; a broadcast comes
with the outcomes of its writes. -/
inductive Call where
  | register (orgID : String) (conn : Conn)
  | unregister (orgID : String) (conn : Conn)
  | broadcast (w : WriteOracle) (orgID event : String) (data : GoValue)

/-- Calls made one after the other: each call runs to its return on the registry
the previous one left, and the traces follow each other. -/
def runCalls : WebSocketService → List Call → WebSocketService × List Action
  | s, [] => (s, [])
  | s, Call.register orgID conn :: rest => runCalls (RegisterClient s orgID conn) rest
  | s, Call.unregister orgID conn :: rest => runCalls (UnregisterClient s orgID conn) rest
  | s, Call.broadcast w orgID event data :: rest =>
    let r := BroadcastToOrganization s w orgID event data
    let r2 := runCalls r.1 rest
    (r2.1, r.2 ++ r2.2)

/-- Number of `WriteMessage` actions of a trace that are issued while the read
lock is held; `held` tells whether it is held when the trace starts. -/
def lockedWrites : Bool → List Action → Nat
  | _, [] => 0
  | _, Action.RLock :: rest => lockedWrites true rest
  | _, Action.RUnlock :: rest => lockedWrites false rest
  | held, Action.WriteMessage _ _ _ :: rest => (if held then 1 else 0) + lockedWrites held rest
  | held, Action.Printf _ :: rest => lockedWrites held rest

end services

/-!
# The handlers of package `api`

The package keeps one process-wide `WebsocketService`; it is passed explicitly
here. A handler run is modelled by the sequence of its effects. The database is
an oracle: `db i` is the outcome of the `i`-th database operation of the run. The
`org_id` of the request context only fills columns and query arguments and is
left out.
-/

namespace api

open services

/-- Outcome of a database operation: success, `gorm.ErrRecordNotFound`, or
another error. -/
inductive DbResult where
  | ok
  | notFound
  | failed
  deriving DecidableEq, Repr

/-- Outcomes of the successive database operations of one handler run. -/
abbrev Db := Nat → DbResult

/-- Effects of a handler run. `Broadcast` is a call of one of the wrappers
`BroadcastServiceUpdate`, `BroadcastIncidentCreated`, `BroadcastIncidentUpdated`,
`BroadcastUpdateAdded`. -/
inductive Effect where
  | JSON (code : Nat)
  | Query (table : String)
  | Create (table : String)
  | Save (table : String)
  | Delete (table : String)
  | Begin
  | Commit
  | Rollback
  | Broadcast (orgID event : String)
  | Upgrade
  | RegisterClient (orgID : String) (conn : Conn)
  | Go (conn : Conn)
  | ReadMessage (conn : Conn)
  | UnregisterClient (orgID : String) (conn : Conn)
  | Close (conn : Conn)
  deriving DecidableEq, Repr

/-- Number of calls of a broadcast wrapper in a run. -/
def broadcastCalls : List Effect → Nat
  | [] => 0
  | Effect.Broadcast _ _ :: rest => 1 + broadcastCalls rest
  | _ :: rest => broadcastCalls rest

/-- Number of occurrences of an effect in a run. -/
def occurrences (e : Effect) (t : List Effect) : Nat := t.count e

/-! ## The broadcast wrappers -/

/-- Function `BroadcastServiceUpdate`. -/
def BroadcastServiceUpdate (s : WebSocketService) (w : WriteOracle) (orgID : String)
    (service : GoValue) : WebSocketService × List Action :=
  BroadcastToOrganization s w orgID ServiceUpdated service

/-- Function `BroadcastIncidentCreated`. -/
def BroadcastIncidentCreated (s : WebSocketService) (w : WriteOracle) (orgID : String)
    (incident : GoValue) : WebSocketService × List Action :=
  BroadcastToOrganization s w orgID IncidentCreated incident

/-- Function `BroadcastIncidentUpdated`. -/
def BroadcastIncidentUpdated (s : WebSocketService) (w : WriteOracle) (orgID : String)
    (incident : GoValue) : WebSocketService × List Action :=
  BroadcastToOrganization s w orgID IncidentUpdated incident

/-- Function `BroadcastUpdateAdded`. -/
def BroadcastUpdateAdded (s : WebSocketService) (w : WriteOracle) (orgID : String)
    (update : GoValue) : WebSocketService × List Action :=
  BroadcastToOrganization s w orgID UpdateAdded update

/-! ## HandleWebSocket -/

/-- Function `HandleWebSocket` up to the `go` statement: the registry after the
handler, its effects, and the connection handed to the reader goroutine, if one
is started. `upgrade` is the result of `upgrader.Upgrade`. -/
def HandleWebSocket (s : WebSocketService) (orgID : String) (upgrade : Except String Conn) :
    WebSocketService × List Effect × Option Conn :=
  if orgID = "" then (s, [Effect.JSON 400], none)
  else
    match upgrade with
    | .error _ => (s, [Effect.Upgrade, Effect.JSON 500], none)
    | .ok conn =>
      (services.RegisterClient s orgID conn,
        [Effect.Upgrade, Effect.RegisterClient orgID conn, Effect.Go conn], some conn)

/-- The loop `for { _, _, err := conn.ReadMessage(); if err != nil { break } }`
from read number `i`: `reads i` is the error of that read, if any. With too
little fuel the loop has not ended. -/
def readLoop (reads : Nat → Option String) (conn : Conn) : Nat → Nat → Option (List Effect)
  | 0, _ => none
  | fuel + 1, i =>
    match reads i with
    | some _ => some [Effect.ReadMessage conn]
    | none =>
      match readLoop reads conn fuel (i + 1) with
      | some t => some (Effect.ReadMessage conn :: t)
      | none => none

/-- The goroutine started by `HandleWebSocket`: the read loop, then the deferred
cleanup `UnregisterClient(orgID, conn)` and `conn.Close()`, run on the registry
`s` found at that time. -/
def readerGoroutine (s : WebSocketService) (orgID : String) (conn : Conn)
    (reads : Nat → Option String) (fuel : Nat) : Option (WebSocketService × List Effect) :=
  match readLoop reads conn fuel 0 with
  | some t =>
    some (services.UnregisterClient s orgID conn,
      t ++ [Effect.UnregisterClient orgID conn, Effect.Close conn])
  | none => none

/-! ## The mutating CRUD handlers

`req` is the result of `c.ShouldBindJSON(&req)`, `none` when binding fails. A
table is named by its model type. -/

/-- Type `ServiceRequest`. -/
structure ServiceRequest where
  Name : String
  Status : String

/-- Type `IncidentRequest`. -/
structure IncidentRequest where
  Title : String
  Description : String
  Status : String
  ServiceIDs : List String

/-- Type `IncidentUpdateRequest`. -/
structure IncidentUpdateRequest where
  Message : String

/-- Keys of `validStatuses` in the service handlers. -/
def serviceStatuses : List String := ["Operational", "Degraded", "Outage"]

/-- Keys of `validStatuses` in the incident handlers. -/
def incidentStatuses : List String := ["Investigating", "Identified", "Monitoring", "Resolved"]

/-- Handler `CreateService`. -/
def CreateService (db : Db) (req : Option ServiceRequest) : List Effect :=
  match req with
  | none => [Effect.JSON 400]
  | some r =>
    if r.Status ∉ serviceStatuses then [Effect.JSON 400]
    else
      match db 0 with
      | DbResult.ok => [Effect.Create "Service", Effect.JSON 201]
      | _ => [Effect.Create "Service", Effect.JSON 500]

/-- Handler `UpdateService`. -/
def UpdateService (db : Db) (req : Option ServiceRequest) : List Effect :=
  match req with
  | none => [Effect.JSON 400]
  | some r =>
    if r.Status ∉ serviceStatuses then [Effect.JSON 400]
    else
      match db 0 with
      | DbResult.notFound => [Effect.Query "Service", Effect.JSON 404]
      | DbResult.failed => [Effect.Query "Service", Effect.JSON 500]
      | DbResult.ok =>
        match db 1 with
        | DbResult.ok => [Effect.Query "Service", Effect.Save "Service", Effect.JSON 200]
        | _ => [Effect.Query "Service", Effect.Save "Service", Effect.JSON 500]

/-- The loop `for _, serviceID := range req.ServiceIDs` that creates the
`IncidentService` rows inside the transaction, from database operation `i`: its
effects, and whether every create succeeded. -/
def associateServices (db : Db) : Nat → List String → List Effect × Bool
  | _, [] => ([], true)
  | i, _ :: rest =>
    match db i with
    | DbResult.ok =>
      let r := associateServices db (i + 1) rest
      (Effect.Create "IncidentService" :: r.1, r.2)
    | _ => ([Effect.Create "IncidentService"], false)

/-- The two reads after `tx.Commit()` in the incident handlers and the final
response with status `code`; `i` is the number of the first read. -/
def reloadAndRespond (db : Db) (i code : Nat) : List Effect :=
  match db i with
  | DbResult.ok =>
    match db (i + 1) with
    | DbResult.ok => [Effect.Query "Service", Effect.Query "IncidentUpdate", Effect.JSON code]
    | _ => [Effect.Query "Service", Effect.Query "IncidentUpdate", Effect.JSON 500]
  | _ => [Effect.Query "Service", Effect.JSON 500]

/-- Handler `CreateIncident`; `count` is the number that the `Count` query
returns. -/
def CreateIncident (db : Db) (count : Nat) (req : Option IncidentRequest) : List Effect :=
  match req with
  | none => [Effect.JSON 400]
  | some r =>
    if r.Status ∉ incidentStatuses then [Effect.JSON 400]
    else
      match db 0 with
      | DbResult.ok =>
        if count ≠ r.ServiceIDs.length then [Effect.Query "Service", Effect.JSON 400]
        else
          match db 1 with
          | DbResult.ok =>
            let a := associateServices db 2 r.ServiceIDs
            if a.2 then
              match db (2 + r.ServiceIDs.length) with
              | DbResult.ok =>
                [Effect.Query "Service", Effect.Begin, Effect.Create "Incident"] ++ a.1 ++
                  [Effect.Create "IncidentUpdate", Effect.Commit] ++
                  reloadAndRespond db (3 + r.ServiceIDs.length) 201
              | _ =>
                [Effect.Query "Service", Effect.Begin, Effect.Create "Incident"] ++ a.1 ++
                  [Effect.Create "IncidentUpdate", Effect.Rollback, Effect.JSON 500]
            else
              [Effect.Query "Service", Effect.Begin, Effect.Create "Incident"] ++ a.1 ++
                [Effect.Rollback, Effect.JSON 500]
          | _ =>
            [Effect.Query "Service", Effect.Begin, Effect.Create "Incident", Effect.Rollback,
              Effect.JSON 500]
      | _ => [Effect.Query "Service", Effect.JSON 500]

/-- Handler `UpdateIncident`; `count` is the number that the `Count` query
returns. -/
def UpdateIncident (db : Db) (count : Nat) (req : Option IncidentRequest) : List Effect :=
  match req with
  | none => [Effect.JSON 400]
  | some r =>
    if r.Status ∉ incidentStatuses then [Effect.JSON 400]
    else
      match db 0 with
      | DbResult.ok =>
        if count ≠ r.ServiceIDs.length then [Effect.Query "Service", Effect.JSON 400]
        else
          match db 1 with
          | DbResult.notFound =>
            [Effect.Query "Service", Effect.Begin, Effect.Query "Incident", Effect.Rollback,
              Effect.JSON 404]
          | DbResult.failed =>
            [Effect.Query "Service", Effect.Begin, Effect.Query "Incident", Effect.Rollback,
              Effect.JSON 500]
          | DbResult.ok =>
            match db 2 with
            | DbResult.ok =>
              match db 3 with
              | DbResult.ok =>
                let a := associateServices db 4 r.ServiceIDs
                if a.2 then
                  [Effect.Query "Service", Effect.Begin, Effect.Query "Incident",
                    Effect.Save "Incident", Effect.Delete "IncidentService"] ++ a.1 ++
                    [Effect.Commit] ++ reloadAndRespond db (4 + r.ServiceIDs.length) 200
                else
                  [Effect.Query "Service", Effect.Begin, Effect.Query "Incident",
                    Effect.Save "Incident", Effect.Delete "IncidentService"] ++ a.1 ++
                    [Effect.Rollback, Effect.JSON 500]
              | _ =>
                [Effect.Query "Service", Effect.Begin, Effect.Query "Incident",
                  Effect.Save "Incident", Effect.Delete "IncidentService", Effect.Rollback,
                  Effect.JSON 500]
            | _ =>
              [Effect.Query "Service", Effect.Begin, Effect.Query "Incident",
                Effect.Save "Incident", Effect.Rollback, Effect.JSON 500]
      | _ => [Effect.Query "Service", Effect.JSON 500]

/-- Handler `AddIncidentUpdate`. -/
def AddIncidentUpdate (db : Db) (req : Option IncidentUpdateRequest) : List Effect :=
  match req with
  | none => [Effect.JSON 400]
  | some _ =>
    match db 0 with
    | DbResult.notFound => [Effect.Query "Incident", Effect.JSON 404]
    | DbResult.failed => [Effect.Query "Incident", Effect.JSON 500]
    | DbResult.ok =>
      match db 1 with
      | DbResult.ok => [Effect.Query "Incident", Effect.Create "IncidentUpdate", Effect.JSON 201]
      | _ => [Effect.Query "Incident", Effect.Create "IncidentUpdate", Effect.JSON 500]

/-- Every database operation succeeds. -/
def dbAllOk : Db := fun _ => DbResult.ok

end api

namespace services

/-! ## Lemmas on the registry -/

theorem clients_register_self (s : WebSocketService) (orgID : String) (conn : Conn) :
    (RegisterClient s orgID conn).clients orgID = some (s.conns orgID ++ [conn]) := by
  cases h : s.clients orgID <;> simp [RegisterClient, mapSet, WebSocketService.conns, h]

theorem clients_register_other (s : WebSocketService) (orgID other : String) (conn : Conn)
    (hne : other ≠ orgID) :
    (RegisterClient s orgID conn).clients other = s.clients other := by
  cases h : s.clients orgID <;> simp [RegisterClient, mapSet, h, hne]

theorem conns_register_self (s : WebSocketService) (orgID : String) (conn : Conn) :
    (RegisterClient s orgID conn).conns orgID = s.conns orgID ++ [conn] := by
  simp [WebSocketService.conns, clients_register_self s orgID conn]

theorem conns_register_other (s : WebSocketService) (orgID other : String) (conn : Conn)
    (hne : other ≠ orgID) :
    (RegisterClient s orgID conn).conns other = s.conns other := by
  simp [WebSocketService.conns, clients_register_other s orgID other conn hne]

theorem rangeFind_none (conn : Conn) (l : List Conn) (i : Nat) (h : conn ∉ l) :
    rangeFind conn l i = none := by
  induction l generalizing i with
  | nil => rfl
  | cons c rest ih =>
    have hc : ¬ c = conn := fun e => h (by simp [e])
    have hr : conn ∉ rest := fun e => h (by simp [e])
    simp [rangeFind, hc, ih (i + 1) hr]

theorem rangeFind_split (conn : Conn) (pre post : List Conn) (i : Nat) (h : conn ∉ pre) :
    rangeFind conn (pre ++ conn :: post) i = some (i + pre.length) := by
  induction pre generalizing i with
  | nil => simp [rangeFind]
  | cons c rest ih =>
    have hc : ¬ c = conn := fun e => h (by simp [e])
    have hr : conn ∉ rest := fun e => h (by simp [e])
    have hi : i + 1 + rest.length = i + (rest.length + 1) := by omega
    simp [rangeFind, hc, ih (i + 1) hr, hi]

/-- A list that contains `conn` splits at the first occurrence of `conn`. -/
theorem split_at_first (conn : Conn) (l : List Conn) (h : conn ∈ l) :
    ∃ pre post, l = pre ++ conn :: post ∧ conn ∉ pre := by
  induction l with
  | nil => simp at h
  | cons c rest ih =>
    by_cases hc : c = conn
    · exact ⟨[], rest, by simp [hc], by simp⟩
    · have hr : conn ∈ rest := by
        rcases List.mem_cons.mp h with e | e
        · exact absurd e.symm hc
        · exact e
      obtain ⟨pre, post, hl, hn⟩ := ih hr
      refine ⟨c :: pre, post, by simp [hl], ?_⟩
      intro hm
      rcases List.mem_cons.mp hm with e | e
      · exact hc e.symm
      · exact hn e

theorem clients_unregister_split (s : WebSocketService) (orgID : String) (conn : Conn)
    (pre post : List Conn) (hc : s.clients orgID = some (pre ++ conn :: post))
    (hpre : conn ∉ pre) :
    (UnregisterClient s orgID conn).clients orgID = some (pre ++ post) := by
  have hf := rangeFind_split conn pre post 0 hpre
  simp only [Nat.zero_add] at hf
  simp [UnregisterClient, hc, hf, mapSet, List.take_append_eq_append_take,
    List.drop_append_eq_append_drop]

theorem unregister_absent (s : WebSocketService) (orgID : String) (conn : Conn)
    (h : conn ∉ s.conns orgID) : UnregisterClient s orgID conn = s := by
  cases hc : s.clients orgID with
  | none => simp [UnregisterClient, hc]
  | some l =>
    have hl : conn ∉ l := by simpa [WebSocketService.conns, hc] using h
    simp [UnregisterClient, hc, rangeFind_none conn l 0 hl]

theorem clients_unregister_other (s : WebSocketService) (orgID other : String) (conn : Conn)
    (hne : other ≠ orgID) :
    (UnregisterClient s orgID conn).clients other = s.clients other := by
  cases hc : s.clients orgID with
  | none => simp [UnregisterClient, hc]
  | some l =>
    cases hf : rangeFind conn l 0 <;> simp [UnregisterClient, hc, hf, mapSet, hne]

theorem conns_unregister_other (s : WebSocketService) (orgID other : String) (conn : Conn)
    (hne : other ≠ orgID) :
    (UnregisterClient s orgID conn).conns other = s.conns other := by
  simp [WebSocketService.conns, clients_unregister_other s orgID other conn hne]

theorem conns_unregister_self (s : WebSocketService) (orgID : String) (conn : Conn) :
    (UnregisterClient s orgID conn).conns orgID = (s.conns orgID).erase conn := by
  by_cases h : conn ∈ s.conns orgID
  · obtain ⟨pre, post, hl, hn⟩ := split_at_first conn (s.conns orgID) h
    cases hc : s.clients orgID with
    | none => simp [WebSocketService.conns, hc] at h
    | some l =>
      have hl2 : l = pre ++ conn :: post := by simpa [WebSocketService.conns, hc] using hl
      subst hl2
      simp [WebSocketService.conns, clients_unregister_split s orgID conn pre post hc hn, hc,
        List.erase_append_right _ hn]
  · rw [unregister_absent s orgID conn h, List.erase_of_not_mem h]

/-! ## Lemmas on the dispatcher -/

theorem sends_append (xs ys : List Action) : sends (xs ++ ys) = sends xs ++ sends ys := by
  induction xs with
  | nil => rfl
  | cons a rest ih => cases a <;> simp [sends, ih]

theorem sends_writeLoop (w : WriteOracle) (msg : String) (conns : List Conn) (i : Nat) :
    sends (writeLoop w msg i conns) = conns.map (fun c => (c, msg)) := by
  induction conns generalizing i with
  | nil => rfl
  | cons c rest ih =>
    simp only [writeLoop]
    cases w i c msg <;> simp [sends, ih]

theorem marshal_envelope (event : String) (data : GoValue) (json : String)
    (h : Marshal data = .ok json) :
    Marshal (envelope event data) = .ok (wireMessage event json) := by
  have hless : keyLess "event" "data" = false := by decide
  have hsort : sortFields [("event", (Except.ok (encodeString event) : Except String String)),
        ("data", Except.ok json)] =
      [("data", Except.ok json), ("event", Except.ok (encodeString event))] := by
    simp [sortFields, insertField, hless]
  have hdata : encodeString "data" = "\"data\"" := by decide
  have hevent : encodeString "event" = "\"event\"" := by decide
  simp only [envelope, Marshal, marshalEntries, h, hsort, collectFields, encodeObject, List.map,
    commaJoin, encodeField, hdata, hevent, wireMessage]
  congr 1
  apply String.ext
  simp [String.data_append]

theorem writeLoop_append (w : WriteOracle) (msg : String) (pre rest : List Conn) (i : Nat) :
    writeLoop w msg i (pre ++ rest) =
      writeLoop w msg i pre ++ writeLoop w msg (i + pre.length) rest := by
  induction pre generalizing i with
  | nil => simp [writeLoop]
  | cons c tl ih =>
    have hi : i + 1 + tl.length = i + (tl.length + 1) := by omega
    simp only [List.cons_append, writeLoop, List.length_cons]
    cases w i c msg <;> simp [ih, hi]

theorem sends_broadcast_some (s : WebSocketService) (w : WriteOracle) (orgID event : String)
    (data : GoValue) (conns : List Conn) (msg : String)
    (hc : s.clients orgID = some conns) (hm : Marshal (envelope event data) = .ok msg) :
    sends (BroadcastToOrganization s w orgID event data).2 = conns.map (fun c => (c, msg)) := by
  simp [BroadcastToOrganization, hc, hm, sends_append, sends, sends_writeLoop]

theorem sends_broadcast_none (s : WebSocketService) (w : WriteOracle) (orgID event : String)
    (data : GoValue) (hc : s.clients orgID = none) :
    sends (BroadcastToOrganization s w orgID event data).2 = [] := by
  simp [BroadcastToOrganization, hc, sends]

theorem sends_broadcast (s : WebSocketService) (w : WriteOracle) (orgID event : String)
    (data : GoValue) (json : String) (hp : Marshal data = .ok json) :
    sends (BroadcastToOrganization s w orgID event data).2 =
      (s.conns orgID).map (fun c => (c, wireMessage event json)) := by
  cases hc : s.clients orgID with
  | none => simp [sends_broadcast_none s w orgID event data hc, WebSocketService.conns, hc]
  | some conns =>
    simp [sends_broadcast_some s w orgID event data conns _ hc (marshal_envelope event data json hp),
      WebSocketService.conns, hc]

/-- Whatever the payload and the network do, a send of a broadcast goes to a
member of the addressed collection. -/
theorem sends_broadcast_mem (s : WebSocketService) (w : WriteOracle) (orgID event : String)
    (data : GoValue) (c : Conn) (m : String)
    (h : (c, m) ∈ sends (BroadcastToOrganization s w orgID event data).2) :
    c ∈ s.conns orgID := by
  cases hc : s.clients orgID with
  | none => simp [sends_broadcast_none s w orgID event data hc] at h
  | some conns =>
    cases hm : Marshal (envelope event data) with
    | error e => simp [BroadcastToOrganization, hc, hm, sends] at h
    | ok msg =>
      rw [sends_broadcast_some s w orgID event data conns msg hc hm] at h
      obtain ⟨a, ha, heq⟩ := List.mem_map.mp h
      have hac : a = c := congrArg Prod.fst heq
      subst hac
      simpa [WebSocketService.conns, hc] using ha

theorem sends_broadcast_nil (s : WebSocketService) (w : WriteOracle) (orgID event : String)
    (data : GoValue) (h : s.conns orgID = []) :
    sends (BroadcastToOrganization s w orgID event data).2 = [] := by
  apply List.eq_nil_iff_forall_not_mem.mpr
  rintro ⟨c, m⟩ hm
  have hmem := sends_broadcast_mem s w orgID event data c m hm
  rw [h] at hmem
  exact absurd hmem (List.not_mem_nil c)

theorem conns_unregister_register (s : WebSocketService) (orgID : String) (conn : Conn)
    (h : conn ∉ s.conns orgID) :
    (UnregisterClient (RegisterClient s orgID conn) orgID conn).conns orgID = s.conns orgID := by
  rw [conns_unregister_self, conns_register_self, List.erase_append_right _ h]
  simp

theorem conns_new (orgID : String) : NewWebSocketService.conns orgID = [] := rfl

theorem invariant_new : RegistryInvariant NewWebSocketService := by
  constructor
  · intro A B c hA
    simp [conns_new] at hA
  · intro A
    simp [conns_new]

theorem invariant_register (s : WebSocketService) (orgID : String) (conn : Conn)
    (hinv : RegistryInvariant s) (hfresh : ∀ U, conn ∉ s.conns U) :
    RegistryInvariant (RegisterClient s orgID conn) := by
  obtain ⟨hone, hnodup⟩ := hinv
  have key : ∀ U c, c ∈ (RegisterClient s orgID conn).conns U →
      (c ∈ s.conns U) ∨ (c = conn ∧ U = orgID) := by
    intro U c hc
    by_cases hU : U = orgID
    · subst hU
      rw [conns_register_self] at hc
      rcases List.mem_append.mp hc with h | h
      · exact Or.inl h
      · exact Or.inr ⟨by simpa using h, rfl⟩
    · rw [conns_register_other s orgID U conn hU] at hc
      exact Or.inl hc
  constructor
  · intro A B c hA hB
    rcases key A c hA with h1 | ⟨h1, h1U⟩ <;> rcases key B c hB with h2 | ⟨h2, h2U⟩
    · exact hone A B c h1 h2
    · exact absurd (h2 ▸ h1) (hfresh A)
    · exact absurd (h1 ▸ h2) (hfresh B)
    · rw [h1U, h2U]
  · intro A
    by_cases hA : A = orgID
    · subst hA
      rw [conns_register_self]
      refine List.Nodup.append (hnodup A) (List.nodup_singleton conn) ?_
      intro x hx hx2
      have hxc : x = conn := by simpa using hx2
      exact hfresh A (hxc ▸ hx)
    · rw [conns_register_other s orgID A conn hA]
      exact hnodup A

theorem invariant_unregister (s : WebSocketService) (orgID : String) (conn : Conn)
    (hinv : RegistryInvariant s) : RegistryInvariant (UnregisterClient s orgID conn) := by
  obtain ⟨hone, hnodup⟩ := hinv
  have key : ∀ U c, c ∈ (UnregisterClient s orgID conn).conns U → c ∈ s.conns U := by
    intro U c hc
    by_cases hU : U = orgID
    · subst hU
      rw [conns_unregister_self] at hc
      exact List.mem_of_mem_erase hc
    · rw [conns_unregister_other s orgID U conn hU] at hc
      exact hc
  constructor
  · intro A B c hA hB
    exact hone A B c (key A c hA) (key B c hB)
  · intro A
    by_cases hA : A = orgID
    · subst hA
      rw [conns_unregister_self]
      exact (hnodup A).erase conn
    · rw [conns_unregister_other s orgID A conn hA]
      exact hnodup A

/-! ## Broadcast: fan-out, isolation and wire format -/

/-- C1: for every registry state, tenant, event kind, serializable payload and
pattern of write errors, a broadcast performs exactly one send attempt for each
entry of the tenant's collection: the targets of its sends, read in order, are
the collection itself, so their number is the number N of its entries. -/
theorem broadcast_attempts_every_connection (s : WebSocketService) (w : WriteOracle)
    (orgID event : String) (data : GoValue) (json : String) (hp : Marshal data = .ok json) :
    (sends (BroadcastToOrganization s w orgID event data).2).map Prod.fst = s.conns orgID ∧
    (sends (BroadcastToOrganization s w orgID event data).2).length = (s.conns orgID).length := by
  rw [sends_broadcast s w orgID event data json hp]
  constructor
  · simp [List.map_map, Function.comp_def]
  · simp

theorem broadcast_attempts_every_connection_witness :
    Marshal outagePayload = .ok "\x7b\"id\":\"svc-1\",\"status\":\"Outage\"\x7d" ∧
    (sends (BroadcastToOrganization threeClients firstFails "org-1" "SERVICE_UPDATED"
      outagePayload).2).map Prod.fst = threeClients.conns "org-1" ∧
    (sends (BroadcastToOrganization threeClients firstFails "org-1" "SERVICE_UPDATED"
      outagePayload).2).length = (threeClients.conns "org-1").length :=
  ⟨by decide, broadcast_attempts_every_connection threeClients firstFails "org-1"
    "SERVICE_UPDATED" outagePayload
    "\x7b\"id\":\"svc-1\",\"status\":\"Outage\"\x7d" (by decide)⟩

/-- C2, as stated, fails: connection 7 is registered under `"org-a"` and under
`"org-b"`, and a broadcast addressed to `"org-b"` sends to it. -/
theorem tenant_isolation_fails_on_shared_connection :
    "org-a" ≠ "org-b" ∧ (7 : Conn) ∈ sharedConn.conns "org-a" ∧
    (sends (BroadcastToOrganization sharedConn allDelivered "org-b" "SERVICE_UPDATED"
      outagePayload).2).map Prod.fst = [7] := by
  decide

/-- C2, amended: a broadcast addressed to tenant B performs no send to a
connection that is registered under tenant A and not under B, and every send it
performs goes to a member of B's collection. -/
theorem broadcast_tenant_isolation (s : WebSocketService) (w : WriteOracle)
    (A B event : String) (data : GoValue) (c : Conn)
    (_hA : c ∈ s.conns A) (hB : c ∉ s.conns B) :
    (∀ m, (c, m) ∉ sends (BroadcastToOrganization s w B event data).2) ∧
    (∀ d m, (d, m) ∈ sends (BroadcastToOrganization s w B event data).2 → d ∈ s.conns B) := by
  exact ⟨fun m hm => hB (sends_broadcast_mem s w B event data c m hm),
    fun d m hm => sends_broadcast_mem s w B event data d m hm⟩

theorem broadcast_tenant_isolation_witness :
    (1 : Conn) ∈ (RegisterClient threeClients "org-2" 9).conns "org-1" ∧
    (1 : Conn) ∉ (RegisterClient threeClients "org-2" 9).conns "org-2" ∧
    (∀ m, ((1 : Conn), m) ∉ sends (BroadcastToOrganization (RegisterClient threeClients "org-2" 9)
      allDelivered "org-2" "SERVICE_UPDATED" outagePayload).2) ∧
    (∀ d m, (d, m) ∈ sends (BroadcastToOrganization (RegisterClient threeClients "org-2" 9)
      allDelivered "org-2" "SERVICE_UPDATED" outagePayload).2 →
      d ∈ (RegisterClient threeClients "org-2" 9).conns "org-2") :=
  ⟨by decide, by decide, broadcast_tenant_isolation (RegisterClient threeClients "org-2" 9)
    allDelivered "org-1" "org-2" "SERVICE_UPDATED" outagePayload 1 (by decide) (by decide)⟩

/-- C3: failure isolation. When the send to the connection `c` at some position
of the collection `pre ++ c :: post` fails, the failure is logged and the loop
goes on: after the failed write and its log line the trace still holds a send
of the same message to every later connection, in order. -/
theorem broadcast_failure_isolation (s : WebSocketService) (w : WriteOracle)
    (orgID event : String) (data : GoValue) (json err : String) (pre post : List Conn) (c : Conn)
    (hc : s.clients orgID = some (pre ++ c :: post)) (hp : Marshal data = .ok json)
    (hfail : w pre.length c (wireMessage event json) = some err) :
    ∃ before after,
      (BroadcastToOrganization s w orgID event data).2 =
        before ++ [Action.WriteMessage c TextMessage (wireMessage event json),
          Action.Printf ("Failed to send WebSocket message: " ++ err)] ++ after ∧
      sends after = post.map (fun d => (d, wireMessage event json)) := by
  refine ⟨[Action.RLock] ++ writeLoop w (wireMessage event json) 0 pre,
    writeLoop w (wireMessage event json) (pre.length + 1) post ++ [Action.RUnlock], ?_, ?_⟩
  · simp [BroadcastToOrganization, hc, marshal_envelope event data json hp, writeLoop_append,
      writeLoop, hfail]
  · simp [sends_append, sends_writeLoop, sends]

theorem broadcast_failure_isolation_witness :
    threeClients.clients "org-1" = some ([] ++ 1 :: [2, 3]) ∧
    (∃ before after,
      (BroadcastToOrganization threeClients firstFails "org-1" "SERVICE_UPDATED" outagePayload).2 =
        before ++ [Action.WriteMessage 1 TextMessage (wireMessage "SERVICE_UPDATED"
            "\x7b\"id\":\"svc-1\",\"status\":\"Outage\"\x7d"),
          Action.Printf ("Failed to send WebSocket message: " ++ "write: broken pipe")] ++ after ∧
      sends after = [2, 3].map (fun d => (d, wireMessage "SERVICE_UPDATED"
        "\x7b\"id\":\"svc-1\",\"status\":\"Outage\"\x7d"))) :=
  ⟨by decide, broadcast_failure_isolation threeClients firstFails "org-1" "SERVICE_UPDATED"
    outagePayload "\x7b\"id\":\"svc-1\",\"status\":\"Outage\"\x7d"
    "write: broken pipe" [] [2, 3] 1 (by decide) (by decide) (by decide)⟩

/-- C4, as stated, fails: with three connections under `"org-1"` the broadcast
of `SERVICE_UPDATED` with the payload `{"id":"svc-1","status":"Outage"}` makes
three sends and none of them carries the text that starts with the `"event"` field. -/
theorem wire_format_event_first_fails :
    (sends (BroadcastToOrganization threeClients allDelivered "org-1" "SERVICE_UPDATED"
      outagePayload).2).length = 3 ∧
    ∀ x ∈ sends (BroadcastToOrganization threeClients allDelivered "org-1" "SERVICE_UPDATED"
      outagePayload).2,
      x.2 ≠ "\x7b\"event\":\"SERVICE_UPDATED\",\"data\":\x7b\"id\":\"svc-1\",\"status\":\"Outage\"\x7d\x7d" := by
  decide

/-- C4, amended: the message for an event kind and a payload with JSON text
`json` is the JSON object with exactly the two fields `data = json` and
`event = kind`, written in sorted key order, `"data"` first and `"event"` second;
every send of the broadcast carries exactly this text. With three connections
under `"org-1"`, the `SERVICE_UPDATED` broadcast of the outage payload sends each
of them `{"data":{"id":"svc-1","status":"Outage"},"event":"SERVICE_UPDATED"}`. -/
theorem wire_format_sorted_keys (s : WebSocketService) (w : WriteOracle)
    (orgID event : String) (data : GoValue) (json : String) (c : Conn) (m : String)
    (hp : Marshal data = .ok json)
    (hm : (c, m) ∈ sends (BroadcastToOrganization s w orgID event data).2) :
    m = "\x7b\"data\":" ++ json ++ ",\"event\":" ++ encodeString event ++ "\x7d" ∧
    sends (BroadcastToOrganization threeClients w "org-1" "SERVICE_UPDATED" outagePayload).2 =
      [(1, "\x7b\"data\":\x7b\"id\":\"svc-1\",\"status\":\"Outage\"\x7d,\"event\":\"SERVICE_UPDATED\"\x7d"),
       (2, "\x7b\"data\":\x7b\"id\":\"svc-1\",\"status\":\"Outage\"\x7d,\"event\":\"SERVICE_UPDATED\"\x7d"),
       (3, "\x7b\"data\":\x7b\"id\":\"svc-1\",\"status\":\"Outage\"\x7d,\"event\":\"SERVICE_UPDATED\"\x7d")] := by
  constructor
  · rw [sends_broadcast s w orgID event data json hp] at hm
    obtain ⟨a, _, heq⟩ := List.mem_map.mp hm
    exact (congrArg Prod.snd heq).symm
  · have hj : Marshal outagePayload =
        .ok "\x7b\"id\":\"svc-1\",\"status\":\"Outage\"\x7d" := by decide
    rw [sends_broadcast threeClients w "org-1" "SERVICE_UPDATED" outagePayload _ hj]
    decide

theorem wire_format_sorted_keys_witness :
    Marshal (GoValue.map [("status", GoValue.str "Outage"), ("id", GoValue.str "svc-1")]) =
      .ok "\x7b\"id\":\"svc-1\",\"status\":\"Outage\"\x7d" ∧
    ((2 : Conn), "\x7b\"data\":\x7b\"id\":\"svc-1\",\"status\":\"Outage\"\x7d,\"event\":\"INCIDENT_CREATED\"\x7d") ∈
      sends (BroadcastToOrganization threeClients firstFails "org-1" "INCIDENT_CREATED"
        (GoValue.map [("status", GoValue.str "Outage"), ("id", GoValue.str "svc-1")])).2 ∧
    ("\x7b\"data\":\x7b\"id\":\"svc-1\",\"status\":\"Outage\"\x7d,\"event\":\"INCIDENT_CREATED\"\x7d" =
      "\x7b\"data\":" ++ "\x7b\"id\":\"svc-1\",\"status\":\"Outage\"\x7d" ++ ",\"event\":" ++
        encodeString "INCIDENT_CREATED" ++ "\x7d" ∧
    sends (BroadcastToOrganization threeClients firstFails "org-1" "SERVICE_UPDATED" outagePayload).2 =
      [(1, "\x7b\"data\":\x7b\"id\":\"svc-1\",\"status\":\"Outage\"\x7d,\"event\":\"SERVICE_UPDATED\"\x7d"),
       (2, "\x7b\"data\":\x7b\"id\":\"svc-1\",\"status\":\"Outage\"\x7d,\"event\":\"SERVICE_UPDATED\"\x7d"),
       (3, "\x7b\"data\":\x7b\"id\":\"svc-1\",\"status\":\"Outage\"\x7d,\"event\":\"SERVICE_UPDATED\"\x7d")]) :=
  ⟨by decide, by decide, wire_format_sorted_keys threeClients firstFails "org-1" "INCIDENT_CREATED"
    (GoValue.map [("status", GoValue.str "Outage"), ("id", GoValue.str "svc-1")])
    "\x7b\"id\":\"svc-1\",\"status\":\"Outage\"\x7d" 2
    "\x7b\"data\":\x7b\"id\":\"svc-1\",\"status\":\"Outage\"\x7d,\"event\":\"INCIDENT_CREATED\"\x7d"
    (by decide) (by decide)⟩

/-! ## Registration, removal and the broadcasts that follow -/

/-- C5: when connection `c` is not registered under tenant T, then after
`RegisterClient(T, c)` followed by `UnregisterClient(T, c)` a broadcast to T
performs no send to `c`; started from the empty registry, it performs no send at all. -/
theorem register_unregister_then_broadcast (s : WebSocketService) (w : WriteOracle)
    (orgID event : String) (data : GoValue) (c : Conn) (h : c ∉ s.conns orgID) :
    (∀ m, (c, m) ∉ sends (BroadcastToOrganization
        (UnregisterClient (RegisterClient s orgID c) orgID c) w orgID event data).2) ∧
    sends (BroadcastToOrganization
        (UnregisterClient (RegisterClient NewWebSocketService orgID c) orgID c)
        w orgID event data).2 = [] := by
  constructor
  · intro m hm
    have hmem := sends_broadcast_mem _ w orgID event data c m hm
    rw [conns_unregister_register s orgID c h] at hmem
    exact h hmem
  · apply sends_broadcast_nil
    rw [conns_unregister_register NewWebSocketService orgID c (by simp [conns_new])]
    rfl

theorem register_unregister_then_broadcast_witness :
    (4 : Conn) ∉ threeClients.conns "org-1" ∧
    ((∀ m, ((4 : Conn), m) ∉ sends (BroadcastToOrganization
        (UnregisterClient (RegisterClient threeClients "org-1" 4) "org-1" 4)
        allDelivered "org-1" "SERVICE_UPDATED" outagePayload).2) ∧
    sends (BroadcastToOrganization
        (UnregisterClient (RegisterClient NewWebSocketService "org-1" 4) "org-1" 4)
        allDelivered "org-1" "SERVICE_UPDATED" outagePayload).2 = []) :=
  ⟨by decide, register_unregister_then_broadcast threeClients allDelivered "org-1"
    "SERVICE_UPDATED" outagePayload 4 (by decide)⟩

/-- C6, as stated, fails: with connection 7 twice in the collection of `"org-1"`,
the first `UnregisterClient` leaves `[7]` and the second leaves `[]`, so the
second call changes the registry. -/
theorem unregister_twice_differs_on_duplicate :
    (UnregisterClient twiceRegistered "org-1" 7).clients "org-1" = some [7] ∧
    (UnregisterClient (UnregisterClient twiceRegistered "org-1" 7) "org-1" 7).clients "org-1" =
      some [] ∧
    UnregisterClient (UnregisterClient twiceRegistered "org-1" 7) "org-1" 7 ≠
      UnregisterClient twiceRegistered "org-1" 7 := by
  refine ⟨by decide, by decide, ?_⟩
  intro h
  have h2 := congrArg (fun t => t.clients "org-1") h
  revert h2
  decide

/-- C6, amended: when connection `c` occurs at most once in tenant T's
collection, calling `UnregisterClient(T, c)` twice in succession leaves the
registry in the same state as calling it once. -/
theorem unregister_idempotent (s : WebSocketService) (orgID : String) (c : Conn)
    (h : (s.conns orgID).count c ≤ 1) :
    UnregisterClient (UnregisterClient s orgID c) orgID c = UnregisterClient s orgID c := by
  apply unregister_absent
  rw [conns_unregister_self]
  apply List.count_eq_zero.mp
  rw [List.count_erase_self]
  omega

theorem unregister_idempotent_witness :
    (threeClients.conns "org-1").count 2 ≤ 1 ∧
    UnregisterClient (UnregisterClient threeClients "org-1" 2) "org-1" 2 =
      UnregisterClient threeClients "org-1" 2 :=
  ⟨by decide, unregister_idempotent threeClients "org-1" 2 (by decide)⟩

/-- C7: a broadcast to a tenant with zero connections, either with no map entry
or with an empty collection, performs zero sends and returns normally: its
trace ends with the deferred release of the read lock. -/
theorem broadcast_no_connections (s : WebSocketService) (w : WriteOracle)
    (orgID event : String) (data : GoValue)
    (h : s.clients orgID = none ∨ s.clients orgID = some []) :
    sends (BroadcastToOrganization s w orgID event data).2 = [] ∧
    (BroadcastToOrganization s w orgID event data).2.getLast? = some Action.RUnlock := by
  constructor
  · apply sends_broadcast_nil
    rcases h with h | h <;> simp [WebSocketService.conns, h]
  · simp only [BroadcastToOrganization]
    exact List.getLast?_concat _

theorem broadcast_no_connections_witness :
    ((UnregisterClient (RegisterClient NewWebSocketService "org-1" 1) "org-1" 1).clients "org-1" = none ∨
      (UnregisterClient (RegisterClient NewWebSocketService "org-1" 1) "org-1" 1).clients "org-1" =
        some []) ∧
    (sends (BroadcastToOrganization
        (UnregisterClient (RegisterClient NewWebSocketService "org-1" 1) "org-1" 1)
        allDelivered "org-1" "SERVICE_UPDATED" outagePayload).2 = [] ∧
    (BroadcastToOrganization
        (UnregisterClient (RegisterClient NewWebSocketService "org-1" 1) "org-1" 1)
        allDelivered "org-1" "SERVICE_UPDATED" outagePayload).2.getLast? = some Action.RUnlock) :=
  ⟨by decide, broadcast_no_connections
    (UnregisterClient (RegisterClient NewWebSocketService "org-1" 1) "org-1" 1)
    allDelivered "org-1" "SERVICE_UPDATED" outagePayload (by decide)⟩

/-- C8: `UnregisterClient(T, c)` removes exactly the first occurrence of `c` from
T's collection and keeps the other connections in their order: a collection
`pre ++ c :: post` with `c` not in `pre` becomes `pre ++ post`, which is what
`List.erase` computes; when T has no collection or `c` is not in it, the
registry state is unchanged. -/
theorem unregister_removes_first_occurrence (s : WebSocketService) (orgID : String) (c : Conn) :
    (∀ pre post, s.clients orgID = some (pre ++ c :: post) → c ∉ pre →
      (UnregisterClient s orgID c).clients orgID = some (pre ++ post)) ∧
    (∀ l, s.clients orgID = some l →
      (UnregisterClient s orgID c).clients orgID = some (l.erase c)) ∧
    (s.clients orgID = none ∨ c ∉ s.conns orgID → UnregisterClient s orgID c = s) := by
  refine ⟨fun pre post hc hpre => clients_unregister_split s orgID c pre post hc hpre, ?_, ?_⟩
  · intro l hl
    by_cases hmem : c ∈ l
    · obtain ⟨pre, post, hsplit, hpre⟩ := split_at_first c l hmem
      subst hsplit
      rw [clients_unregister_split s orgID c pre post hl hpre, List.erase_append_right _ hpre]
      simp
    · have habs : c ∉ s.conns orgID := by simpa [WebSocketService.conns, hl] using hmem
      rw [unregister_absent s orgID c habs, hl, List.erase_of_not_mem hmem]
  · intro h
    apply unregister_absent
    rcases h with h | h
    · simp [WebSocketService.conns, h]
    · exact h

theorem unregister_removes_first_occurrence_witness :
    (RegisterClient threeClients "org-1" 2).clients "org-1" = some ([1] ++ 2 :: [3, 2]) ∧
    (2 : Conn) ∉ [1] ∧
    (UnregisterClient (RegisterClient threeClients "org-1" 2) "org-1" 2).clients "org-1" =
      some ([1] ++ [3, 2]) :=
  ⟨by decide, by decide,
    (unregister_removes_first_occurrence (RegisterClient threeClients "org-1" 2) "org-1" 2).1
      [1] [3, 2] (by decide) (by decide)⟩

/-- C9: `RegisterClient(T, c)` makes T's collection its previous collection with
`c` appended at the end, the singleton `[c]` when T had no collection, and a
broadcast to T of a serializable payload invoked right after it attempts a send
to `c`. -/
theorem register_appends_and_is_broadcast_target (s : WebSocketService) (w : WriteOracle)
    (orgID event : String) (data : GoValue) (json : String) (c : Conn)
    (hp : Marshal data = .ok json) :
    (∀ l, s.clients orgID = some l → (RegisterClient s orgID c).clients orgID = some (l ++ [c])) ∧
    (s.clients orgID = none → (RegisterClient s orgID c).clients orgID = some [c]) ∧
    (c, wireMessage event json) ∈
      sends (BroadcastToOrganization (RegisterClient s orgID c) w orgID event data).2 := by
  refine ⟨?_, ?_, ?_⟩
  · intro l hl
    simp [clients_register_self, WebSocketService.conns, hl]
  · intro hn
    simp [clients_register_self, WebSocketService.conns, hn]
  · rw [sends_broadcast _ w orgID event data json hp, conns_register_self]
    simp

theorem register_appends_and_is_broadcast_target_witness :
    Marshal outagePayload = .ok "\x7b\"id\":\"svc-1\",\"status\":\"Outage\"\x7d" ∧
    ((∀ l, threeClients.clients "org-1" = some l →
      (RegisterClient threeClients "org-1" 4).clients "org-1" = some (l ++ [4])) ∧
    (threeClients.clients "org-1" = none →
      (RegisterClient threeClients "org-1" 4).clients "org-1" = some [4]) ∧
    ((4 : Conn), wireMessage "UPDATE_ADDED" "\x7b\"id\":\"svc-1\",\"status\":\"Outage\"\x7d") ∈
      sends (BroadcastToOrganization (RegisterClient threeClients "org-1" 4) firstFails "org-1"
        "UPDATE_ADDED" outagePayload).2) :=
  ⟨by decide, register_appends_and_is_broadcast_target threeClients firstFails "org-1"
    "UPDATE_ADDED" outagePayload "\x7b\"id\":\"svc-1\",\"status\":\"Outage\"\x7d" 4 (by decide)⟩

/-- C10, as stated, fails: two `RegisterClient` calls with the same connection
reach a state in which that connection is twice in one collection, and two calls
under different tenants reach a state in which it is in two collections. -/
theorem reachable_state_breaks_invariant :
    (Reachable twiceRegistered ∧ ¬ RegistryInvariant twiceRegistered) ∧
    (Reachable sharedConn ∧ ¬ RegistryInvariant sharedConn) := by
  refine ⟨⟨Reachable.register _ _ _ (Reachable.register _ _ _ Reachable.init), ?_⟩,
    ⟨Reachable.register _ _ _ (Reachable.register _ _ _ Reachable.init), ?_⟩⟩
  · intro hinv
    have h := hinv.2 "org-1"
    revert h
    decide
  · intro hinv
    have h := hinv.1 "org-a" "org-b" 7 (by decide) (by decide)
    revert h
    decide

/-- C10, amended: in every registry state reachable from `NewWebSocketService()`
by `RegisterClient` and `UnregisterClient` calls in which each `RegisterClient`
is given a connection that is in no collection at the time of the call, each
connection appears in at most one tenant's collection and at most once in it. -/
theorem registry_invariant_of_fresh_registrations (s : WebSocketService)
    (h : ReachableFresh s) : RegistryInvariant s := by
  induction h with
  | init => exact invariant_new
  | register s orgID conn _ hfresh ih => exact invariant_register s orgID conn ih hfresh
  | unregister s orgID conn _ ih => exact invariant_unregister s orgID conn ih

theorem registry_invariant_of_fresh_registrations_witness :
    ReachableFresh (UnregisterClient
      (RegisterClient (RegisterClient NewWebSocketService "org-1" 1) "org-2" 2) "org-1" 1) ∧
    RegistryInvariant (UnregisterClient
      (RegisterClient (RegisterClient NewWebSocketService "org-1" 1) "org-2" 2) "org-1" 1) :=
  have hreach : ReachableFresh (UnregisterClient
      (RegisterClient (RegisterClient NewWebSocketService "org-1" 1) "org-2" 2) "org-1" 1) :=
    ReachableFresh.unregister _ _ _
      (ReachableFresh.register _ _ _
        (ReachableFresh.register _ _ _ ReachableFresh.init (fun U => by simp [conns_new]))
        (fun U => by
          by_cases hU : U = "org-1"
          · subst hU
            decide
          · rw [conns_register_other _ _ _ _ hU]
            simp [conns_new]))
  ⟨hreach, registry_invariant_of_fresh_registrations _ hreach⟩

/-! ## Serialization failure, frame, ordering and the read lock -/

theorem marshal_envelope_error (event : String) (data : GoValue) (e : String)
    (h : Marshal data = .error e) : Marshal (envelope event data) = .error e := by
  have hless : keyLess "event" "data" = false := by decide
  simp [envelope, Marshal, marshalEntries, h, sortFields, insertField, hless, collectFields]

theorem lockedWrites_writeLoop (w : WriteOracle) (msg : String) (conns : List Conn) (i : Nat)
    (rest : List Action) :
    lockedWrites true (writeLoop w msg i conns ++ rest) =
      conns.length + lockedWrites true rest := by
  induction conns generalizing i with
  | nil => simp [writeLoop]
  | cons c tl ih =>
    simp only [writeLoop]
    cases w i c msg <;> simp [lockedWrites, ih] <;> omega

theorem runCalls_two_broadcasts (s : WebSocketService) (w1 w2 : WriteOracle)
    (orgID event1 event2 : String) (data1 data2 : GoValue) :
    (runCalls s [Call.broadcast w1 orgID event1 data1, Call.broadcast w2 orgID event2 data2]).2 =
      (BroadcastToOrganization s w1 orgID event1 data1).2 ++
        (BroadcastToOrganization s w2 orgID event2 data2).2 := by
  simp [runCalls, BroadcastToOrganization]

/-- C11: if serializing the envelope fails, the broadcast performs no send to any
connection and returns normally; when the tenant has a collection its whole
trace is the read lock, the log line of the failure and the release of the lock. -/
theorem broadcast_aborts_on_marshal_failure (s : WebSocketService) (w : WriteOracle)
    (orgID event : String) (data : GoValue) (e : String)
    (hm : Marshal (envelope event data) = .error e) :
    sends (BroadcastToOrganization s w orgID event data).2 = [] ∧
    (BroadcastToOrganization s w orgID event data).2.getLast? = some Action.RUnlock ∧
    (∀ conns, s.clients orgID = some conns →
      (BroadcastToOrganization s w orgID event data).2 =
        [Action.RLock, Action.Printf ("Failed to marshal WebSocket message: " ++ e),
          Action.RUnlock]) := by
  refine ⟨?_, ?_, ?_⟩
  · cases hc : s.clients orgID with
    | none => exact sends_broadcast_none s w orgID event data hc
    | some conns => simp [BroadcastToOrganization, hc, hm, sends]
  · simp only [BroadcastToOrganization]
    exact List.getLast?_concat _
  · intro conns hc
    simp [BroadcastToOrganization, hc, hm]

theorem broadcast_aborts_on_marshal_failure_witness :
    Marshal (envelope "SERVICE_UPDATED" channelPayload) =
      .error "json: unsupported type: chan int" ∧
    (sends (BroadcastToOrganization threeClients allDelivered "org-1" "SERVICE_UPDATED"
      channelPayload).2 = [] ∧
    (BroadcastToOrganization threeClients allDelivered "org-1" "SERVICE_UPDATED"
      channelPayload).2.getLast? = some Action.RUnlock ∧
    (∀ conns, threeClients.clients "org-1" = some conns →
      (BroadcastToOrganization threeClients allDelivered "org-1" "SERVICE_UPDATED"
        channelPayload).2 =
        [Action.RLock, Action.Printf ("Failed to marshal WebSocket message: " ++
          "json: unsupported type: chan int"), Action.RUnlock])) :=
  ⟨by decide, broadcast_aborts_on_marshal_failure threeClients allDelivered "org-1"
    "SERVICE_UPDATED" channelPayload "json: unsupported type: chan int" (by decide)⟩

/-- C12: `BroadcastToOrganization` never changes the registry: for every registry
state, tenant, event, payload and pattern of send failures the registry after
the call is the registry before it, so every collection, and with it a
connection whose send failed, is as it was. -/
theorem broadcast_keeps_registry (s : WebSocketService) (w : WriteOracle)
    (orgID event : String) (data : GoValue) :
    (BroadcastToOrganization s w orgID event data).1 = s ∧
    (∀ U, (BroadcastToOrganization s w orgID event data).1.clients U = s.clients U) ∧
    (runCalls s [Call.broadcast w orgID event data]).1 = s := by
  refine ⟨rfl, fun _ => rfl, rfl⟩

/-- C13: for two sequential broadcasts to one tenant with no registry change in
between, all sends of the first call precede all sends of the second, so every
connection of the tenant is sent the first message before the second. -/
theorem sequential_broadcasts_in_order (s : WebSocketService) (w1 w2 : WriteOracle)
    (orgID event1 event2 : String) (data1 data2 : GoValue) (json1 json2 : String)
    (h1 : Marshal data1 = .ok json1) (h2 : Marshal data2 = .ok json2) :
    (runCalls s [Call.broadcast w1 orgID event1 data1, Call.broadcast w2 orgID event2 data2]).2 =
      (BroadcastToOrganization s w1 orgID event1 data1).2 ++
        (BroadcastToOrganization s w2 orgID event2 data2).2 ∧
    sends (runCalls s
        [Call.broadcast w1 orgID event1 data1, Call.broadcast w2 orgID event2 data2]).2 =
      (s.conns orgID).map (fun c => (c, wireMessage event1 json1)) ++
        (s.conns orgID).map (fun c => (c, wireMessage event2 json2)) := by
  refine ⟨runCalls_two_broadcasts s w1 w2 orgID event1 event2 data1 data2, ?_⟩
  rw [runCalls_two_broadcasts, sends_append, sends_broadcast s w1 orgID event1 data1 json1 h1,
    sends_broadcast s w2 orgID event2 data2 json2 h2]

theorem sequential_broadcasts_in_order_witness :
    Marshal outagePayload = .ok "\x7b\"id\":\"svc-1\",\"status\":\"Outage\"\x7d" ∧
    Marshal (GoValue.str "first update") = .ok "\"first update\"" ∧
    (runCalls threeClients
        [Call.broadcast firstFails "org-1" "SERVICE_UPDATED" outagePayload,
          Call.broadcast allDelivered "org-1" "UPDATE_ADDED" (GoValue.str "first update")]).2 =
      (BroadcastToOrganization threeClients firstFails "org-1" "SERVICE_UPDATED"
        outagePayload).2 ++
        (BroadcastToOrganization threeClients allDelivered "org-1" "UPDATE_ADDED"
          (GoValue.str "first update")).2 ∧
    sends (runCalls threeClients
        [Call.broadcast firstFails "org-1" "SERVICE_UPDATED" outagePayload,
          Call.broadcast allDelivered "org-1" "UPDATE_ADDED" (GoValue.str "first update")]).2 =
      (threeClients.conns "org-1").map (fun c => (c, wireMessage "SERVICE_UPDATED"
          "\x7b\"id\":\"svc-1\",\"status\":\"Outage\"\x7d")) ++
        (threeClients.conns "org-1").map (fun c => (c, wireMessage "UPDATE_ADDED"
          "\"first update\"")) :=
  ⟨by decide, by decide, sequential_broadcasts_in_order threeClients firstFails allDelivered
    "org-1" "SERVICE_UPDATED" "UPDATE_ADDED" outagePayload (GoValue.str "first update")
    "\x7b\"id\":\"svc-1\",\"status\":\"Outage\"\x7d" "\"first update\"" (by decide) (by decide)⟩

/-- C15, as stated, fails: in the broadcast to three connections the read lock is
taken first, the three sends follow, and the lock is released last, so all three
sends are performed while the lock is held. -/
theorem sends_happen_under_read_lock :
    (BroadcastToOrganization threeClients allDelivered "org-1" "SERVICE_UPDATED"
      outagePayload).2 =
      [Action.RLock,
        Action.WriteMessage 1 TextMessage
          "\x7b\"data\":\x7b\"id\":\"svc-1\",\"status\":\"Outage\"\x7d,\"event\":\"SERVICE_UPDATED\"\x7d",
        Action.WriteMessage 2 TextMessage
          "\x7b\"data\":\x7b\"id\":\"svc-1\",\"status\":\"Outage\"\x7d,\"event\":\"SERVICE_UPDATED\"\x7d",
        Action.WriteMessage 3 TextMessage
          "\x7b\"data\":\x7b\"id\":\"svc-1\",\"status\":\"Outage\"\x7d,\"event\":\"SERVICE_UPDATED\"\x7d",
        Action.RUnlock] ∧
    lockedWrites false (BroadcastToOrganization threeClients allDelivered "org-1"
      "SERVICE_UPDATED" outagePayload).2 = 3 := by
  decide

/-- C15, amended: `BroadcastToOrganization` holds the registry read lock for the
whole call: its trace starts with the acquisition of the read lock and ends with
its release by the deferred `RUnlock`, and every send of the call is issued in
between, while the lock is held. -/
theorem broadcast_holds_read_lock_across_sends (s : WebSocketService) (w : WriteOracle)
    (orgID event : String) (data : GoValue) :
    (BroadcastToOrganization s w orgID event data).2.head? = some Action.RLock ∧
    (BroadcastToOrganization s w orgID event data).2.getLast? = some Action.RUnlock ∧
    lockedWrites false (BroadcastToOrganization s w orgID event data).2 =
      (sends (BroadcastToOrganization s w orgID event data).2).length := by
  refine ⟨by simp [BroadcastToOrganization], ?_, ?_⟩
  · simp only [BroadcastToOrganization]
    exact List.getLast?_concat _
  · cases hc : s.clients orgID with
    | none => simp [BroadcastToOrganization, hc, lockedWrites, sends]
    | some conns =>
      cases hm : Marshal (envelope event data) with
      | error e => simp [BroadcastToOrganization, hc, hm, lockedWrites, sends]
      | ok msg =>
        rw [sends_broadcast_some s w orgID event data conns msg hc hm]
        simp [BroadcastToOrganization, hc, hm, lockedWrites, lockedWrites_writeLoop]

/-- C19: frame of the mutators. For tenants T and U with U different from T,
`RegisterClient(T, c)` and `UnregisterClient(T, c)` leave U's entry of the map
unchanged: its presence, its members and their order. -/
theorem mutators_leave_other_tenants (s : WebSocketService) (T U : String) (c : Conn)
    (h : U ≠ T) :
    (RegisterClient s T c).clients U = s.clients U ∧
    (UnregisterClient s T c).clients U = s.clients U :=
  ⟨clients_register_other s T U c h, clients_unregister_other s T U c h⟩

theorem mutators_leave_other_tenants_witness :
    "org-b" ≠ "org-a" ∧
    ((RegisterClient sharedConn "org-a" 8).clients "org-b" = sharedConn.clients "org-b" ∧
    (UnregisterClient sharedConn "org-a" 7).clients "org-b" = sharedConn.clients "org-b") ∧
    (UnregisterClient sharedConn "org-a" 7).clients "org-a" = some [] ∧
    sharedConn.clients "org-b" = some [7] :=
  ⟨by decide, ⟨(mutators_leave_other_tenants sharedConn "org-a" "org-b" 8 (by decide)).1,
    (mutators_leave_other_tenants sharedConn "org-a" "org-b" 7 (by decide)).2⟩,
    by decide, by decide⟩

end services

namespace api

open services

/-! ## Lemmas on the handlers -/

theorem broadcastCalls_append (xs ys : List Effect) :
    broadcastCalls (xs ++ ys) = broadcastCalls xs + broadcastCalls ys := by
  induction xs with
  | nil => simp [broadcastCalls]
  | cons a rest ih =>
    cases a <;> simp [broadcastCalls, ih]
    omega

theorem broadcastCalls_associateServices (db : Db) (i : Nat) (ids : List String) :
    broadcastCalls (associateServices db i ids).1 = 0 := by
  induction ids generalizing i with
  | nil => simp [associateServices, broadcastCalls]
  | cons _ rest ih =>
    simp only [associateServices]
    cases db i <;> simp [broadcastCalls, ih]

theorem broadcastCalls_reloadAndRespond (db : Db) (i code : Nat) :
    broadcastCalls (reloadAndRespond db i code) = 0 := by
  simp only [reloadAndRespond]
  cases db i <;> cases db (i + 1) <;> simp [broadcastCalls]

theorem broadcastCalls_CreateService (db : Db) (req : Option ServiceRequest) :
    broadcastCalls (CreateService db req) = 0 := by
  unfold CreateService
  repeat' split
  all_goals simp [broadcastCalls]

theorem broadcastCalls_UpdateService (db : Db) (req : Option ServiceRequest) :
    broadcastCalls (UpdateService db req) = 0 := by
  unfold UpdateService
  repeat' split
  all_goals simp [broadcastCalls]

theorem broadcastCalls_CreateIncident (db : Db) (count : Nat) (req : Option IncidentRequest) :
    broadcastCalls (CreateIncident db count req) = 0 := by
  unfold CreateIncident
  repeat' split
  all_goals first
    | (simp [broadcastCalls, broadcastCalls_append, broadcastCalls_associateServices,
        broadcastCalls_reloadAndRespond]; done)
    | (simp only []
       split <;> simp [broadcastCalls, broadcastCalls_append, broadcastCalls_associateServices,
        broadcastCalls_reloadAndRespond])

theorem broadcastCalls_UpdateIncident (db : Db) (count : Nat) (req : Option IncidentRequest) :
    broadcastCalls (UpdateIncident db count req) = 0 := by
  unfold UpdateIncident
  repeat' split
  all_goals first
    | (simp [broadcastCalls, broadcastCalls_append, broadcastCalls_associateServices,
        broadcastCalls_reloadAndRespond]; done)
    | (simp only []
       split <;> simp [broadcastCalls, broadcastCalls_append, broadcastCalls_associateServices,
        broadcastCalls_reloadAndRespond])

theorem broadcastCalls_AddIncidentUpdate (db : Db) (req : Option IncidentUpdateRequest) :
    broadcastCalls (AddIncidentUpdate db req) = 0 := by
  unfold AddIncidentUpdate
  repeat' split
  all_goals simp [broadcastCalls]

theorem readLoop_first_error (reads : Nat → Option String) (conn : Conn) (n : Nat) (e : String)
    (hn : reads n = some e) (hbefore : ∀ i, i < n → reads i = none) :
    ∀ k fuel i, i + k = n → k < fuel →
      readLoop reads conn fuel i = some (List.replicate (k + 1) (Effect.ReadMessage conn)) := by
  intro k
  induction k with
  | zero =>
    intro fuel i hi hf
    obtain ⟨f, rfl⟩ : ∃ f, fuel = f + 1 := ⟨fuel - 1, by omega⟩
    have hin : i = n := by omega
    subst hin
    simp [readLoop, hn]
  | succ k ih =>
    intro fuel i hi hf
    obtain ⟨f, rfl⟩ : ∃ f, fuel = f + 1 := ⟨fuel - 1, by omega⟩
    have hnone : reads i = none := hbefore i (by omega)
    have hrec := ih f (i + 1) (by omega) (by omega)
    simp [readLoop, hnone, hrec, List.replicate_succ]

/-! ## The call contract, the event kinds and the connection lifecycle -/

/-- C14: the handlers do not meet the call contract. No run of `CreateService`,
`UpdateService`, `CreateIncident`, `UpdateIncident` or `AddIncidentUpdate` calls
a broadcast wrapper, also not a run that commits its mutation: `CreateService`
with a valid request and a working database creates the service and answers 201,
and `CreateIncident` commits its transaction and answers 201, each with no
broadcast where the contract asks for exactly one. -/
theorem handlers_never_broadcast (db : Db) (count : Nat) (sreq : Option ServiceRequest)
    (ireq : Option IncidentRequest) (ureq : Option IncidentUpdateRequest) :
    broadcastCalls (CreateService db sreq) = 0 ∧
    broadcastCalls (UpdateService db sreq) = 0 ∧
    broadcastCalls (CreateIncident db count ireq) = 0 ∧
    broadcastCalls (UpdateIncident db count ireq) = 0 ∧
    broadcastCalls (AddIncidentUpdate db ureq) = 0 ∧
    CreateService dbAllOk (some (ServiceRequest.mk "API" "Outage")) =
      [Effect.Create "Service", Effect.JSON 201] ∧
    CreateIncident dbAllOk 1 (some (IncidentRequest.mk "API down" "" "Investigating" ["svc-1"])) =
      [Effect.Query "Service", Effect.Begin, Effect.Create "Incident",
        Effect.Create "IncidentService", Effect.Create "IncidentUpdate", Effect.Commit,
        Effect.Query "Service", Effect.Query "IncidentUpdate", Effect.JSON 201] :=
  ⟨broadcastCalls_CreateService db sreq, broadcastCalls_UpdateService db sreq,
    broadcastCalls_CreateIncident db count ireq, broadcastCalls_UpdateIncident db count ireq,
    broadcastCalls_AddIncidentUpdate db ureq, by decide, by decide⟩

/-- C17: the event-kind constants are exactly the four strings `SERVICE_UPDATED`,
`INCIDENT_CREATED`, `INCIDENT_UPDATED` and `UPDATE_ADDED`, all different, and each
wrapper of package `api` is the broadcast with its own kind, on the tenant and
the payload it was given. -/
theorem event_kinds_and_wrappers (s : WebSocketService) (w : WriteOracle) (o : String)
    (x : GoValue) :
    eventKinds = ["SERVICE_UPDATED", "INCIDENT_CREATED", "INCIDENT_UPDATED", "UPDATE_ADDED"] ∧
    eventKinds.Nodup ∧
    BroadcastServiceUpdate s w o x = BroadcastToOrganization s w o "SERVICE_UPDATED" x ∧
    BroadcastIncidentCreated s w o x = BroadcastToOrganization s w o "INCIDENT_CREATED" x ∧
    BroadcastIncidentUpdated s w o x = BroadcastToOrganization s w o "INCIDENT_UPDATED" x ∧
    BroadcastUpdateAdded s w o x = BroadcastToOrganization s w o "UPDATE_ADDED" x :=
  ⟨rfl, by decide, rfl, rfl, rfl, rfl⟩

/-- C18: connection lifecycle of `HandleWebSocket`. A request with an empty
`orgId` is answered 400 and registers nothing. After a successful upgrade to a
new connection the handler registers it under `orgId` exactly once. When the
read loop of the goroutine gets its first read error, at read number `n`, the
loop ends and the cleanup calls `UnregisterClient(orgId, conn)` and then
`conn.Close()`, each exactly once: whatever registry `later` the cleanup finds,
it leaves exactly `UnregisterClient later orgId conn`, in which the connection
is no longer in the collection of `orgId` when it was there at most once. Run
right after the handler, the cleanup gives back the collection of `orgId` as it
was before the request. -/
theorem websocket_connection_lifecycle (s later : WebSocketService) (orgID : String)
    (conn : Conn) (reads : Nat → Option String) (n fuel : Nat) (e : String)
    (hne : orgID ≠ "") (hfresh : conn ∉ s.conns orgID)
    (hlater : (later.conns orgID).count conn ≤ 1)
    (hn : reads n = some e) (hbefore : ∀ i, i < n → reads i = none) (hfuel : n < fuel) :
    (∀ up, HandleWebSocket s "" up = (s, [Effect.JSON 400], none)) ∧
    HandleWebSocket s orgID (.ok conn) =
      (services.RegisterClient s orgID conn,
        [Effect.Upgrade, Effect.RegisterClient orgID conn, Effect.Go conn], some conn) ∧
    occurrences (Effect.RegisterClient orgID conn) (HandleWebSocket s orgID (.ok conn)).2.1 = 1 ∧
    ((HandleWebSocket s orgID (.ok conn)).1.conns orgID).count conn = 1 ∧
    readerGoroutine later orgID conn reads fuel =
      some (services.UnregisterClient later orgID conn,
        List.replicate (n + 1) (Effect.ReadMessage conn) ++
          [Effect.UnregisterClient orgID conn, Effect.Close conn]) ∧
    occurrences (Effect.UnregisterClient orgID conn)
      (List.replicate (n + 1) (Effect.ReadMessage conn) ++
        [Effect.UnregisterClient orgID conn, Effect.Close conn]) = 1 ∧
    occurrences (Effect.Close conn)
      (List.replicate (n + 1) (Effect.ReadMessage conn) ++
        [Effect.UnregisterClient orgID conn, Effect.Close conn]) = 1 ∧
    conn ∉ (services.UnregisterClient later orgID conn).conns orgID ∧
    (∀ U, U ≠ orgID → (services.UnregisterClient later orgID conn).clients U = later.clients U) ∧
    readerGoroutine (HandleWebSocket s orgID (.ok conn)).1 orgID conn reads fuel =
      some (services.UnregisterClient (services.RegisterClient s orgID conn) orgID conn,
        List.replicate (n + 1) (Effect.ReadMessage conn) ++
          [Effect.UnregisterClient orgID conn, Effect.Close conn]) ∧
    (services.UnregisterClient (services.RegisterClient s orgID conn) orgID conn).conns orgID =
      s.conns orgID := by
  have hloop := readLoop_first_error reads conn n e hn hbefore n fuel 0 (by omega) hfuel
  have hhandler : HandleWebSocket s orgID (.ok conn) =
      (services.RegisterClient s orgID conn,
        [Effect.Upgrade, Effect.RegisterClient orgID conn, Effect.Go conn], some conn) := by
    simp [HandleWebSocket, hne]
  have hcount : (s.conns orgID).count conn = 0 := List.count_eq_zero.mpr hfresh
  refine ⟨fun up => by simp [HandleWebSocket], hhandler, ?_, ?_, ?_, ?_, ?_, ?_, ?_, ?_, ?_⟩
  · rw [hhandler]
    simp [occurrences]
  · rw [hhandler]
    simp [conns_register_self, hcount]
  · simp [readerGoroutine, hloop]
  · simp [occurrences, List.count_replicate]
  · simp [occurrences, List.count_replicate]
  · rw [conns_unregister_self]
    apply List.count_eq_zero.mp
    rw [List.count_erase_self]
    omega
  · intro U hU
    exact clients_unregister_other later orgID U conn hU
  · rw [hhandler]
    simp [readerGoroutine, hloop]
  · exact conns_unregister_register s orgID conn hfresh

theorem websocket_connection_lifecycle_witness :
    "org-1" ≠ "" ∧ (4 : Conn) ∉ threeClients.conns "org-1" ∧
    ((services.RegisterClient (services.RegisterClient threeClients "org-1" 4) "org-1" 5).conns
      "org-1").count 4 ≤ 1 ∧
    ((∀ up, HandleWebSocket threeClients "" up = (threeClients, [Effect.JSON 400], none)) ∧
    HandleWebSocket threeClients "org-1" (.ok 4) =
      (services.RegisterClient threeClients "org-1" 4,
        [Effect.Upgrade, Effect.RegisterClient "org-1" 4, Effect.Go 4], some 4) ∧
    occurrences (Effect.RegisterClient "org-1" 4)
      (HandleWebSocket threeClients "org-1" (.ok 4)).2.1 = 1 ∧
    ((HandleWebSocket threeClients "org-1" (.ok 4)).1.conns "org-1").count 4 = 1 ∧
    readerGoroutine (services.RegisterClient (services.RegisterClient threeClients "org-1" 4)
        "org-1" 5) "org-1" 4
        (fun i => if i = 2 then some "websocket: close 1001 (going away)" else none) 5 =
      some (services.UnregisterClient
          (services.RegisterClient (services.RegisterClient threeClients "org-1" 4) "org-1" 5)
          "org-1" 4,
        List.replicate (2 + 1) (Effect.ReadMessage 4) ++
          [Effect.UnregisterClient "org-1" 4, Effect.Close 4]) ∧
    occurrences (Effect.UnregisterClient "org-1" 4)
      (List.replicate (2 + 1) (Effect.ReadMessage 4) ++
        [Effect.UnregisterClient "org-1" 4, Effect.Close 4]) = 1 ∧
    occurrences (Effect.Close 4)
      (List.replicate (2 + 1) (Effect.ReadMessage 4) ++
        [Effect.UnregisterClient "org-1" 4, Effect.Close 4]) = 1 ∧
    (4 : Conn) ∉ (services.UnregisterClient
      (services.RegisterClient (services.RegisterClient threeClients "org-1" 4) "org-1" 5)
      "org-1" 4).conns "org-1" ∧
    (∀ U, U ≠ "org-1" →
      (services.UnregisterClient
        (services.RegisterClient (services.RegisterClient threeClients "org-1" 4) "org-1" 5)
        "org-1" 4).clients U =
      (services.RegisterClient (services.RegisterClient threeClients "org-1" 4) "org-1" 5).clients
        U) ∧
    readerGoroutine (HandleWebSocket threeClients "org-1" (.ok 4)).1 "org-1" 4
        (fun i => if i = 2 then some "websocket: close 1001 (going away)" else none) 5 =
      some (services.UnregisterClient (services.RegisterClient threeClients "org-1" 4) "org-1" 4,
        List.replicate (2 + 1) (Effect.ReadMessage 4) ++
          [Effect.UnregisterClient "org-1" 4, Effect.Close 4]) ∧
    (services.UnregisterClient (services.RegisterClient threeClients "org-1" 4) "org-1" 4).conns
      "org-1" = threeClients.conns "org-1") :=
  ⟨by decide, by decide, by decide, websocket_connection_lifecycle threeClients
    (services.RegisterClient (services.RegisterClient threeClients "org-1" 4) "org-1" 5)
    "org-1" 4
    (fun i => if i = 2 then some "websocket: close 1001 (going away)" else none) 2 5
    "websocket: close 1001 (going away)" (by decide) (by decide) (by decide) (by decide)
    (fun i hi => by
      have h2 : i ≠ 2 := by omega
      simp [h2])
    (by decide)⟩

end api
